import Mathlib

/-!
Verification of the SerialPortPool dummy-UUT simulators.

This file embeds the two Python simulators of the repository —
`tests/DummyUUT/dummy_uut.py` (class `DummyUUT`) and
`SerialPortPoolService/multi_port_dummy_uut.py` (class `MultiPortDummyUUT`
and its `main` entry point) — as executable Lean definitions, and proves
or refutes the specification's claims about them.

Strings are modelled with Lean `String` (a wrapper around `List Char`);
Python's `str.strip`, `str.replace`, `str.startswith` and dictionary
lookup are given explicit definitions mirroring the source.  The
read-evaluate-respond loop of each simulator is modelled as a pure
iteration function on receive events, and the `while self.running` loop
as a fold over a trace of (flag value, event) pairs, the flag being read
once at each iteration boundary exactly as the Python `while` guard does.
-/

namespace SerialSim

/-- Characters removed by Python `str.strip()` (Unicode whitespace as
recognised by `str.isspace`). -/
def py_isspace (ch : Char) : Bool :=
  let n := ch.toNat
  (decide (9 ≤ n) && decide (n ≤ 13)) || (decide (28 ≤ n) && decide (n ≤ 31)) ||
  n == 32 || n == 133 || n == 160 || n == 5760 ||
  (decide (8192 ≤ n) && decide (n ≤ 8202)) || n == 8232 || n == 8233 ||
  n == 8239 || n == 8287 || n == 12288

/-- Python `s.strip()`: remove whitespace characters from both ends. -/
def pystrip (s : String) : String :=
  ⟨((s.data.dropWhile py_isspace).reverse.dropWhile py_isspace).reverse⟩

/-- Python `command.replace("\r", "").replace("\n", "")` from
`DummyUUT._get_response`: remove every carriage return, then every line
feed (replacement by the empty string is exactly a filter). -/
def replace_rn (s : String) : String :=
  ⟨(s.data.filter (fun ch => ch != '\r')).filter (fun ch => ch != '\n')⟩

/-- Python `command.startswith(tag)`. -/
def startswith (s tag : String) : Bool :=
  tag.data.isPrefixOf s.data

/-- Whether `s` ends with the suffix `suf` (used to state the CRLF
termination properties). -/
def endswith (s suf : String) : Bool :=
  suf.data.isSuffixOf s.data

/-- Python dictionary membership test plus indexing, `k in d` / `d[k]`,
on an association list (keys are unique in every table built here). -/
def lookupTable : List (String × String) → String → Option String
  | [], _ => none
  | (k, v) :: rest, c => if c = k then some v else lookupTable rest c

/-- Python dictionary assignment `d[command] = response`: overwrite the
existing key or append a new entry (`DummyUUT.add_command`). -/
def insertTable : List (String × String) → String → String → List (String × String)
  | [], c, r => [(c, r)]
  | (k, v) :: rest, c, r =>
    if k = c then (c, r) :: rest else (k, v) :: insertTable rest c r

/-- The `command_responses` dictionary built in `DummyUUT.__init__`. -/
def command_responses : List (String × String) :=
  [("ATZ\r\n", "OK\r\n"), ("ATZ", "OK\r\n"),
   ("INIT_RS232\r\n", "READY\r\n"), ("INIT_RS232", "READY\r\n"),
   ("AT+STATUS\r\n", "STATUS_OK\r\n"), ("AT+STATUS", "STATUS_OK\r\n"),
   ("RUN_TEST_1\r\n", "PASS\r\n"), ("RUN_TEST_1", "PASS\r\n"),
   ("TEST\r\n", "PASS\r\n"), ("TEST", "PASS\r\n"),
   ("AT+QUIT\r\n", "GOODBYE\r\n"), ("AT+QUIT", "GOODBYE\r\n"),
   ("STOP_RS232\r\n", "BYE\r\n"), ("STOP_RS232", "BYE\r\n"),
   ("EXIT\r\n", "BYE\r\n"), ("EXIT", "BYE\r\n"),
   ("AT+SHUTDOWN\r\n", "SHUTDOWN_OK\r\n"), ("AT+SHUTDOWN", "SHUTDOWN_OK\r\n")]

/-- `DummyUUT._get_response`: exact match first, then with CRLF appended,
then with every carriage return and line feed removed; `None` when all
three attempts fail. -/
def get_response (table : List (String × String)) (command : String) : Option String :=
  match lookupTable table command with
  | some r => some r
  | none =>
    match lookupTable table (command ++ "\r\n") with
    | some r => some r
    | none =>
      match lookupTable table (replace_rn command) with
      | some r => some r
      | none => none

/-- `MultiPortDummyUUT.create_main_uut_handler`: the if/elif chain mapping
a received (already stripped) command to the response written back. -/
def main_uut_response (command : String) : String :=
  if command = "MAIN_POWER_ON" then "MAIN_POWER:ON\r\n"
  else if command = "MAIN_INIT" then "MAIN_INIT:OK\r\n"
  else if command = "MAIN_TEST_STATUS" then "MAIN_STATUS:READY\r\n"
  else if command = "MAIN_SELF_TEST" then "MAIN_SELF_TEST:PASS\r\n"
  else if command = "MAIN_SHUTDOWN" then "MAIN_SHUTDOWN:OK\r\n"
  else if startswith command "MAIN_" = true then "MAIN_UNKNOWN_CMD:" ++ command ++ "\r\n"
  else "MAIN_ERROR:INVALID_COMMAND\r\n"

/-- `MultiPortDummyUUT.create_port_handler`: the if/elif chain for the
secondary device with index `port_num`; each Python f-string is the
corresponding concatenation of PORT, the decimal index and the suffix. -/
def port_response (port_num : Nat) (command : String) : String :=
  if command = "PORT" ++ toString port_num ++ "_ENABLE" then
    "PORT" ++ toString port_num ++ ":ENABLED\r\n"
  else if command = "PORT" ++ toString port_num ++ "_TEST" then
    "PORT" ++ toString port_num ++ ":TEST_OK\r\n"
  else if command = "PORT" ++ toString port_num ++ "_DATA_CHECK" then
    "PORT" ++ toString port_num ++ ":DATA_VALID\r\n"
  else if command = "PORT" ++ toString port_num ++ "_DISABLE" then
    "PORT" ++ toString port_num ++ ":DISABLED\r\n"
  else if startswith command ("PORT" ++ toString port_num ++ "_") = true then
    "PORT" ++ toString port_num ++ "_UNKNOWN_CMD:" ++ command ++ "\r\n"
  else
    "PORT" ++ toString port_num ++ "_ERROR:INVALID_COMMAND\r\n"

/-- The recognized vocabulary of the main-UUT handler, as the pairs of the
if/elif chain of `create_main_uut_handler`. -/
def main_vocab : List (String × String) :=
  [("MAIN_POWER_ON", "MAIN_POWER:ON\r\n"),
   ("MAIN_INIT", "MAIN_INIT:OK\r\n"),
   ("MAIN_TEST_STATUS", "MAIN_STATUS:READY\r\n"),
   ("MAIN_SELF_TEST", "MAIN_SELF_TEST:PASS\r\n"),
   ("MAIN_SHUTDOWN", "MAIN_SHUTDOWN:OK\r\n")]

/-- The recognized vocabulary of the secondary-port handler with index
`port_num`, as the pairs of the if/elif chain of `create_port_handler`. -/
def port_vocab (port_num : Nat) : List (String × String) :=
  [("PORT" ++ toString port_num ++ "_ENABLE", "PORT" ++ toString port_num ++ ":ENABLED\r\n"),
   ("PORT" ++ toString port_num ++ "_TEST", "PORT" ++ toString port_num ++ ":TEST_OK\r\n"),
   ("PORT" ++ toString port_num ++ "_DATA_CHECK", "PORT" ++ toString port_num ++ ":DATA_VALID\r\n"),
   ("PORT" ++ toString port_num ++ "_DISABLE", "PORT" ++ toString port_num ++ ":DISABLED\r\n")]

/-- What one polling iteration of a processing loop can observe on the
transport: nothing waiting, a decoded line, a serial timeout raised
mid-iteration, or bytes that fail UTF-8 decoding. -/
inductive RxEvent where
  | noData
  | line (raw : String)
  | timeoutFault
  | decodeFault
deriving DecidableEq

/-- Result of one polling iteration: the response written to the
transport this iteration (if any), and whether the loop keeps going (a
Python `break` makes it `false`). -/
structure StepResult where
  output : Option String
  keepGoing : Bool
deriving DecidableEq

/-- One iteration of the body of `DummyUUT._process_commands`: skip when
nothing is waiting or the stripped command is empty, answer from the
table or with the fallback error, and catch every exception (decode
faults included) by logging and continuing. -/
def dummy_iteration (table : List (String × String)) (ev : RxEvent) : StepResult :=
  match ev with
  | RxEvent.noData => { output := none, keepGoing := true }
  | RxEvent.timeoutFault => { output := none, keepGoing := true }
  | RxEvent.decodeFault => { output := none, keepGoing := true }
  | RxEvent.line raw =>
    let command := pystrip raw
    if command = "" then { output := none, keepGoing := true }
    else
      match get_response table command with
      | some response => { output := some response, keepGoing := true }
      | none => { output := some "ERROR: Unknown command\r\n", keepGoing := true }

/-- One iteration of the inner loop body of the closure built by
`MultiPortDummyUUT.create_main_uut_handler`: every line (empty or not) is
answered through the if/elif chain; a `SerialTimeoutException` continues
the loop; any other exception — a UTF-8 decode error included — logs and
breaks out of the loop. -/
def main_iteration (ev : RxEvent) : StepResult :=
  match ev with
  | RxEvent.noData => { output := none, keepGoing := true }
  | RxEvent.timeoutFault => { output := none, keepGoing := true }
  | RxEvent.decodeFault => { output := none, keepGoing := false }
  | RxEvent.line raw =>
    { output := some (main_uut_response (pystrip raw)), keepGoing := true }

/-- One iteration of the inner loop body of the closure built by
`MultiPortDummyUUT.create_port_handler` for index `port_num`; same
exception discipline as the main handler. -/
def port_iteration (port_num : Nat) (ev : RxEvent) : StepResult :=
  match ev with
  | RxEvent.noData => { output := none, keepGoing := true }
  | RxEvent.timeoutFault => { output := none, keepGoing := true }
  | RxEvent.decodeFault => { output := none, keepGoing := false }
  | RxEvent.line raw =>
    { output := some (port_response port_num (pystrip raw)), keepGoing := true }

/-- The `while self.running:` processing loop, run over a trace of
iteration boundaries.  Each list entry records the value of the shared
`running` flag at the moment the `while` guard reads it, together with
the event the iteration would observe; the loop exits as soon as a guard
reads `false`, and a `break` inside the body (keepGoing = false) also
ends it.  The result is the sequence of responses written. -/
def run_loop (iteration : RxEvent → StepResult) : List (Bool × RxEvent) → List String
  | [] => []
  | (running, ev) :: rest =>
    if running then
      let r := iteration ev
      r.output.toList ++ (if r.keepGoing then run_loop iteration rest else [])
    else []

/-- A pyserial handle as far as the lifecycle claims need it: whether
`is_open` holds.  `serial.Serial(...)` returns an open handle and
`close()` clears the flag (and is safe on a closed handle). -/
structure SerialHandle where
  is_open : Bool
deriving DecidableEq

/-- The mutable attributes of a `DummyUUT` instance. -/
structure DummyState where
  port_name : String
  baud_rate : Nat
  serial_port : Option SerialHandle
  running : Bool
  device_state : String
  table : List (String × String)
deriving DecidableEq

/-- `DummyUUT.__init__`. -/
def dummy_init (port_name : String) (baud_rate : Nat) : DummyState :=
  { port_name := port_name, baud_rate := baud_rate, serial_port := none,
    running := false, device_state := "OFFLINE", table := command_responses }

/-- `DummyUUT.start` when `serial.Serial` succeeds: store the open
handle, set `running`, set the state to ONLINE, launch the thread. -/
def dummy_start_ok (s : DummyState) : DummyState :=
  { s with serial_port := some { is_open := true },
           running := true, device_state := "ONLINE" }

/-- `DummyUUT.start` when `serial.Serial` raises `SerialException`: the
assignment never happens, the method logs and returns `False` leaving
every attribute unchanged. -/
def dummy_start_fail (s : DummyState) : DummyState :=
  s

/-- `DummyUUT.stop`: clear `running`, set the state to OFFLINE, and close
the port only when a handle exists and is still open.  The returned list
records the close operations performed by this call. -/
def dummy_stop (s : DummyState) : DummyState × List String :=
  let s1 := { s with running := false, device_state := "OFFLINE" }
  match s1.serial_port with
  | some h =>
    if h.is_open then
      ({ s1 with serial_port := some { is_open := false } }, [s.port_name])
    else (s1, [])
  | none => (s1, [])

/-- `DummyUUT.add_command`. -/
def add_command (s : DummyState) (command response : String) : DummyState :=
  { s with table := insertTable s.table command response }

/-- The operations a client can perform on a `DummyUUT` after
construction (`get_status` reads and is omitted: it changes nothing). -/
inductive DummyOp where
  | start_ok
  | start_fail
  | stop_op
  | add_cmd (command response : String)
deriving DecidableEq

/-- Apply one operation to a `DummyUUT` state. -/
def dummy_apply (s : DummyState) (op : DummyOp) : DummyState :=
  match op with
  | DummyOp.start_ok => dummy_start_ok s
  | DummyOp.start_fail => dummy_start_fail s
  | DummyOp.stop_op => (dummy_stop s).1
  | DummyOp.add_cmd c r => add_command s c r

/-- Whether the transport handle of a `DummyUUT` is present and open. -/
def handle_open (s : DummyState) : Bool :=
  match s.serial_port with
  | some h => h.is_open
  | none => false

/-- The mutable attributes of a `MultiPortDummyUUT` instance. -/
structure MultiState where
  main_port : String
  secondary_ports : List String
  baudrate : Nat
  running : Bool
  serial_connections : List (String × SerialHandle)
deriving DecidableEq

/-- `MultiPortDummyUUT.__init__`. -/
def multi_init (main_port : String) (secondary_ports : List String) (baudrate : Nat) :
    MultiState :=
  { main_port := main_port, secondary_ports := secondary_ports,
    baudrate := baudrate, running := false, serial_connections := [] }

/-- `MultiPortDummyUUT.stop`: clear the shared `running` flag and close
every recorded connection; each close is wrapped in try/except so a
failing or already-closed handle never raises. -/
def multi_stop (m : MultiState) : MultiState :=
  { m with running := false,
           serial_connections :=
             m.serial_connections.map (fun pc => (pc.1, { is_open := false })) }

/-- Python `args.ports.split(',')` on the character list of the
argument. -/
def split_commas (l : List Char) : List (List Char) :=
  l.foldr
    (fun ch acc =>
      if ch = ',' then [] :: acc
      else
        match acc with
        | [] => [[ch]]
        | cur :: rest => (ch :: cur) :: rest)
    [[]]

/-- `secondary_ports = [port.strip() for port in args.ports.split(',')]`
in `multi_port_dummy_uut.main`. -/
def parse_ports (ports_arg : String) : List String :=
  (split_commas ports_arg.data).map (fun l => pystrip (String.mk l))

/-- Outcome of the launch: the process exit code when `sys.exit` fires,
the constructed simulator object if any, and the threads started. -/
structure LaunchResult where
  exit_code : Option Nat
  uut : Option MultiState
  threads_started : List String
deriving DecidableEq

/-- `multi_port_dummy_uut.main`: parse the port list, `sys.exit(1)` when
it does not have exactly 3 entries — before `MultiPortDummyUUT` is
constructed and before `start` spawns any thread — otherwise construct
the simulator and start one thread per port. -/
def main_entry (main_port : String) (ports_arg : String) (baudrate : Nat) : LaunchResult :=
  let secondary_ports := parse_ports ports_arg
  if secondary_ports.length ≠ 3 then
    { exit_code := some 1, uut := none, threads_started := [] }
  else
    { exit_code := none,
      uut := some (multi_init main_port secondary_ports baudrate),
      threads_started := main_port :: secondary_ports }

/-- Modelled from the spec: the spec claim for C5 says the matched
command equals the decoded line with only TRAILING carriage-return and
line-feed characters removed; this definition follows those words, to be
compared with `pystrip`, which is what the source actually applies. -/
def trim_trailing_terminators (s : String) : String :=
  ⟨(s.data.reverse.dropWhile (fun ch => ch == '\r' || ch == '\n')).reverse⟩

/-- The invariant the `DummyUUT` lifecycle actually maintains: the
transport handle is present AND open exactly when `running` is set, and
`running` is set exactly when the device state reads ONLINE. -/
def dummy_invariant (s : DummyState) : Prop :=
  handle_open s = s.running ∧ (s.running = true ↔ s.device_state = "ONLINE")

end SerialSim

namespace SerialSim

theorem lookupTable_mem {T : List (String × String)} {c r : String}
    (h : lookupTable T c = some r) : (c, r) ∈ T := by
  induction T with
  | nil => simp [lookupTable] at h
  | cons p rest ih =>
    obtain ⟨k, v⟩ := p
    rw [lookupTable] at h
    by_cases hc : c = k
    · rw [if_pos hc] at h
      cases h
      subst hc
      exact List.mem_cons_self _ _
    · rw [if_neg hc] at h
      exact List.mem_cons_of_mem _ (ih h)

theorem replace_rn_append (a b : String) :
    replace_rn (a ++ b) = replace_rn a ++ replace_rn b := by
  apply String.ext
  simp [replace_rn, List.filter_append]

theorem replace_rn_idem (s : String) :
    replace_rn (replace_rn s) = replace_rn s := by
  apply String.ext
  simp only [replace_rn]
  have hp : ∀ a ∈ (s.data.filter (fun ch => ch != '\r')).filter (fun ch => ch != '\n'),
      (a != '\r') = true := by
    intro a ha
    exact (List.mem_filter.1 (List.mem_filter.1 ha).1).2
  have hq : ∀ a ∈ (s.data.filter (fun ch => ch != '\r')).filter (fun ch => ch != '\n'),
      (a != '\n') = true := by
    intro a ha
    exact (List.mem_filter.1 ha).2
  rw [List.filter_eq_self.2 hp, List.filter_eq_self.2 hq]

theorem replace_rn_crlf (c : String) :
    replace_rn (c ++ "\r\n") = replace_rn c := by
  rw [replace_rn_append]
  have h : replace_rn "\r\n" = "" := by decide
  rw [h, String.append_empty]

theorem command_responses_coherent :
    ∀ p ∈ command_responses, lookupTable command_responses (replace_rn p.1) = some p.2 := by
  decide

theorem lookup_replace_rn {x r : String}
    (h : lookupTable command_responses x = some r) :
    lookupTable command_responses (replace_rn x) = some r :=
  command_responses_coherent (x, r) (lookupTable_mem h)

theorem get_response_of_strip {c r : String}
    (h : lookupTable command_responses (replace_rn c) = some r) :
    get_response command_responses c = some r := by
  unfold get_response
  cases h1 : lookupTable command_responses c with
  | some v =>
    have hv := lookup_replace_rn h1
    rw [h] at hv
    cases hv
    rfl
  | none =>
    cases h2 : lookupTable command_responses (c ++ "\r\n") with
    | some v =>
      have hv := lookup_replace_rn h2
      rw [replace_rn_crlf, h] at hv
      cases hv
      rfl
    | none =>
      rw [h]

end SerialSim

namespace SerialSim

/-- Claim C1: the generic simulator's command-table lookup tries, in this
precedence order, (1) the command as received, (2) the command with CRLF
appended, (3) the command with every carriage return and line feed
removed; it returns no response exactly when all three attempts find no
stored key; and over the simulator's vocabulary, lookup of `c`, of
`c ++ CRLF` and of the terminator-stripped form of `c` all resolve to
the same stored entry whenever one exists for the stripped form. -/
theorem c1_lookup_normalization (T : List (String × String)) (x c r : String)
    (h : lookupTable command_responses (replace_rn c) = some r) :
    (∀ v, lookupTable T x = some v → get_response T x = some v)
    ∧ (lookupTable T x = none →
        ∀ v, lookupTable T (x ++ "\r\n") = some v → get_response T x = some v)
    ∧ (lookupTable T x = none → lookupTable T (x ++ "\r\n") = none →
        get_response T x = lookupTable T (replace_rn x))
    ∧ (get_response T x = none ↔
        lookupTable T x = none ∧ lookupTable T (x ++ "\r\n") = none ∧
          lookupTable T (replace_rn x) = none)
    ∧ get_response command_responses c = some r
    ∧ get_response command_responses (c ++ "\r\n") = some r
    ∧ get_response command_responses (replace_rn c) = some r := by
  refine ⟨?_, ?_, ?_, ?_, ?_, ?_, ?_⟩
  · intro v hv
    unfold get_response
    rw [hv]
  · intro h1 v hv
    unfold get_response
    rw [h1, hv]
  · intro h1 h2
    unfold get_response
    rw [h1, h2]
    cases lookupTable T (replace_rn x) <;> rfl
  · unfold get_response
    cases h1 : lookupTable T x with
    | some v => simp
    | none =>
      cases h2 : lookupTable T (x ++ "\r\n") with
      | some v => simp
      | none =>
        cases h3 : lookupTable T (replace_rn x) with
        | some v => simp
        | none => simp
  · exact get_response_of_strip h
  · apply get_response_of_strip
    rw [replace_rn_crlf]
    exact h
  · apply get_response_of_strip
    rw [replace_rn_idem]
    exact h

/-- Witness for C1 at the concrete command `"ATZ\r\n"`. -/
theorem c1_lookup_normalization_witness :
    lookupTable command_responses (replace_rn "ATZ\r\n") = some "OK\r\n"
    ∧ get_response command_responses ("ATZ\r\n" ++ "\r\n") = some "OK\r\n" :=
  ⟨by decide,
   (c1_lookup_normalization [] "x" "ATZ\r\n" "OK\r\n" (by decide)).2.2.2.2.2.1⟩

end SerialSim

namespace SerialSim

theorem isPrefixOf_append_self (l t : List Char) : l.isPrefixOf (l ++ t) = true := by
  induction l with
  | nil => simp [List.isPrefixOf]
  | cons a l ih => simp [List.isPrefixOf, ih]

theorem isSuffixOf_append_self (l t : List Char) : t.isSuffixOf (l ++ t) = true := by
  simp only [List.isSuffixOf, List.reverse_append]
  exact isPrefixOf_append_self _ _

theorem endswith_append (a b : String) : endswith (a ++ b) b = true := by
  simp only [endswith, String.data_append]
  exact isSuffixOf_append_self _ _

theorem endswith_crlf_of_append (q s t : String) (h : s ++ "\r\n" = t) :
    endswith (q ++ t) "\r\n" = true := by
  rw [← h, ← String.append_assoc]
  exact endswith_append _ _

theorem startswith_split (q a b c : String) (h : a ++ b = c) :
    startswith (q ++ c) (q ++ a) = true := by
  subst h
  simp only [startswith, String.data_append, ← List.append_assoc]
  exact isPrefixOf_append_self _ _

theorem port_key_ne (n : Nat) (a b : String) (hne : a ≠ b) :
    "PORT" ++ toString n ++ a ≠ "PORT" ++ toString n ++ b := by
  intro h
  apply hne
  have hd := congrArg String.data h
  rw [String.data_append, String.data_append] at hd
  exact String.ext (List.append_cancel_left hd)

theorem port_resolve (n : Nat) (c r : String) (h : (c, r) ∈ port_vocab n) :
    port_response n c = r := by
  simp only [port_vocab, List.mem_cons, List.not_mem_nil, or_false, Prod.mk.injEq] at h
  rcases h with ⟨hc, hr⟩ | ⟨hc, hr⟩ | ⟨hc, hr⟩ | ⟨hc, hr⟩ <;> subst hc <;> subst hr <;>
    unfold port_response
  · rw [if_pos rfl]
  · rw [if_neg (port_key_ne n _ _ (by decide)), if_pos rfl]
  · rw [if_neg (port_key_ne n _ _ (by decide)), if_neg (port_key_ne n _ _ (by decide)),
      if_pos rfl]
  · rw [if_neg (port_key_ne n _ _ (by decide)), if_neg (port_key_ne n _ _ (by decide)),
      if_neg (port_key_ne n _ _ (by decide)), if_pos rfl]

theorem port_unknown (n : Nat) (c : String)
    (h : c ∉ (port_vocab n).map Prod.fst)
    (hpre : startswith c ("PORT" ++ toString n ++ "_") = true) :
    port_response n c = "PORT" ++ toString n ++ "_UNKNOWN_CMD:" ++ c ++ "\r\n" := by
  simp only [port_vocab, List.map_cons, List.map_nil, List.mem_cons, List.not_mem_nil,
    or_false, not_or] at h
  obtain ⟨h1, h2, h3, h4⟩ := h
  unfold port_response
  rw [if_neg h1, if_neg h2, if_neg h3, if_neg h4, if_pos hpre]

theorem port_invalid (n : Nat) (c : String)
    (hpre : startswith c ("PORT" ++ toString n ++ "_") = false) :
    port_response n c = "PORT" ++ toString n ++ "_ERROR:INVALID_COMMAND\r\n" := by
  have hk : ∀ b : String, "_" ++ b ≠ "" → c ≠ "PORT" ++ toString n ++ ("_" ++ b) := by
    intro b _ he
    subst he
    rw [startswith_split ("PORT" ++ toString n) "_" b _ rfl] at hpre
    exact absurd hpre (by decide)
  unfold port_response
  rw [if_neg (by have := hk "ENABLE" (by decide); rwa [show ("_" ++ "ENABLE" : String) = "_ENABLE" by decide] at this),
    if_neg (by have := hk "TEST" (by decide); rwa [show ("_" ++ "TEST" : String) = "_TEST" by decide] at this),
    if_neg (by have := hk "DATA_CHECK" (by decide); rwa [show ("_" ++ "DATA_CHECK" : String) = "_DATA_CHECK" by decide] at this),
    if_neg (by have := hk "DISABLE" (by decide); rwa [show ("_" ++ "DISABLE" : String) = "_DISABLE" by decide] at this),
    if_neg (by simp [hpre])]

end SerialSim

namespace SerialSim

theorem main_resolve (c r : String) (h : (c, r) ∈ main_vocab) :
    main_uut_response c = r := by
  simp only [main_vocab, List.mem_cons, List.not_mem_nil, or_false, Prod.mk.injEq] at h
  rcases h with ⟨hc, hr⟩ | ⟨hc, hr⟩ | ⟨hc, hr⟩ | ⟨hc, hr⟩ | ⟨hc, hr⟩ <;>
    subst hc <;> subst hr <;> decide

theorem main_unknown (c : String)
    (h : c ∉ main_vocab.map Prod.fst)
    (hpre : startswith c "MAIN_" = true) :
    main_uut_response c = "MAIN_UNKNOWN_CMD:" ++ c ++ "\r\n" := by
  simp only [main_vocab, List.map_cons, List.map_nil, List.mem_cons, List.not_mem_nil,
    or_false, not_or] at h
  obtain ⟨h1, h2, h3, h4, h5⟩ := h
  unfold main_uut_response
  rw [if_neg h1, if_neg h2, if_neg h3, if_neg h4, if_neg h5, if_pos hpre]

theorem main_invalid (c : String) (hpre : startswith c "MAIN_" = false) :
    main_uut_response c = "MAIN_ERROR:INVALID_COMMAND\r\n" := by
  have hk : ∀ k : String, startswith k "MAIN_" = true → c ≠ k := by
    intro k hks he
    rw [he, hks] at hpre
    exact absurd hpre (by decide)
  unfold main_uut_response
  rw [if_neg (hk _ (by decide)), if_neg (hk _ (by decide)), if_neg (hk _ (by decide)),
    if_neg (hk _ (by decide)), if_neg (hk _ (by decide)), if_neg (by simp [hpre])]

/-- Claim C2: for every trimmed command line received by a role handler, a
recognized command is answered with exactly the mapped response, an
unrecognized command carrying the role tag is answered with the role's
unknown-command template embedding the command verbatim, and any other
command is answered with the role's generic invalid-command response;
every such response is CRLF-terminated. -/
theorem c2_role_dispatch (n : Nat) (c : String) :
    (∀ r, (c, r) ∈ main_vocab → main_uut_response c = r)
    ∧ (c ∉ main_vocab.map Prod.fst → startswith c "MAIN_" = true →
        main_uut_response c = "MAIN_UNKNOWN_CMD:" ++ c ++ "\r\n")
    ∧ (startswith c "MAIN_" = false →
        main_uut_response c = "MAIN_ERROR:INVALID_COMMAND\r\n")
    ∧ (∀ r, (c, r) ∈ port_vocab n → port_response n c = r)
    ∧ (c ∉ (port_vocab n).map Prod.fst →
        startswith c ("PORT" ++ toString n ++ "_") = true →
        port_response n c = "PORT" ++ toString n ++ "_UNKNOWN_CMD:" ++ c ++ "\r\n")
    ∧ (startswith c ("PORT" ++ toString n ++ "_") = false →
        port_response n c = "PORT" ++ toString n ++ "_ERROR:INVALID_COMMAND\r\n")
    ∧ endswith (main_uut_response c) "\r\n" = true
    ∧ endswith (port_response n c) "\r\n" = true := by
  refine ⟨fun r h => main_resolve c r h,
          fun h hpre => main_unknown c h hpre,
          fun hpre => main_invalid c hpre,
          fun r h => port_resolve n c r h,
          fun h hpre => port_unknown n c h hpre,
          fun hpre => port_invalid n c hpre, ?_, ?_⟩
  · unfold main_uut_response
    split
    · decide
    split
    · decide
    split
    · decide
    split
    · decide
    split
    · decide
    split
    · exact endswith_append _ _
    · decide
  · unfold port_response
    split
    · exact endswith_crlf_of_append _ ":ENABLED" _ (by decide)
    split
    · exact endswith_crlf_of_append _ ":TEST_OK" _ (by decide)
    split
    · exact endswith_crlf_of_append _ ":DATA_VALID" _ (by decide)
    split
    · exact endswith_crlf_of_append _ ":DISABLED" _ (by decide)
    split
    · exact endswith_append _ _
    · exact endswith_crlf_of_append _ "_ERROR:INVALID_COMMAND" _ (by decide)

/-- Witness for C2 at the end-to-end commands of the spec. -/
theorem c2_role_dispatch_witness :
    main_uut_response "MAIN_POWER_ON" = "MAIN_POWER:ON\r\n"
    ∧ main_uut_response "MAIN_FOO" = "MAIN_UNKNOWN_CMD:MAIN_FOO\r\n"
    ∧ main_uut_response "garbage" = "MAIN_ERROR:INVALID_COMMAND\r\n"
    ∧ port_response 2 "PORT2_TEST" = "PORT2:TEST_OK\r\n"
    ∧ port_response 2 "PORT2_FOO" = "PORT2_UNKNOWN_CMD:PORT2_FOO\r\n"
    ∧ port_response 2 "hello" = "PORT2_ERROR:INVALID_COMMAND\r\n" :=
  ⟨(c2_role_dispatch 2 "MAIN_POWER_ON").1 "MAIN_POWER:ON\r\n" (by decide),
   ((c2_role_dispatch 2 "MAIN_FOO").2.1 (by decide) (by decide)).trans (by decide),
   (c2_role_dispatch 2 "garbage").2.2.1 (by decide),
   (c2_role_dispatch 2 "PORT2_TEST").2.2.2.1 "PORT2:TEST_OK\r\n" (by decide),
   ((c2_role_dispatch 2 "PORT2_FOO").2.2.2.2.1 (by decide) (by decide)).trans (by decide),
   ((c2_role_dispatch 2 "hello").2.2.2.2.2.1 (by decide)).trans (by decide)⟩

end SerialSim

namespace SerialSim

/-- Claim C3: each processing loop reads the shared running flag once per
iteration boundary; once `stop()` clears it, the very next boundary
check exits the loop, so no new iteration ever begins after the flag is
observed clear — the events after that boundary are irrelevant to the
written output — and `stop()` of both simulators does clear the flag. -/
theorem c3_stop_observed (iteration : RxEvent → StepResult)
    (pre rest rest' : List (Bool × RxEvent)) (ev : RxEvent)
    (s : DummyState) (m : MultiState) :
    run_loop iteration ((false, ev) :: rest) = []
    ∧ run_loop iteration (pre ++ (false, ev) :: rest) =
        run_loop iteration (pre ++ (false, ev) :: rest')
    ∧ (dummy_stop s).1.running = false
    ∧ (multi_stop m).running = false := by
  refine ⟨rfl, ?_, ?_, rfl⟩
  · induction pre with
    | nil => rfl
    | cons p pre ih =>
      obtain ⟨b, e⟩ := p
      cases b
      · rfl
      · simp only [List.cons_append, run_loop, if_true]
        cases hkg : (iteration e).keepGoing
        · simp [hkg]
        · simp [hkg, ih]
  · obtain ⟨pn, br, sp, run, ds, tb⟩ := s
    cases sp with
    | none => rfl
    | some h =>
      obtain ⟨o⟩ := h
      cases o <;> rfl

/-- Counterexample for C4: the main-UUT role handler does not skip an empty
trimmed line; it answers it with the generic invalid-command response. -/
theorem c4_counterexample :
    pystrip "\r\n" = ""
    ∧ (main_iteration (RxEvent.line "\r\n")).output
        = some "MAIN_ERROR:INVALID_COMMAND\r\n" := by
  exact ⟨by decide, by decide⟩

theorem isPrefixOf_cons_nil (a : Char) (l : List Char) :
    (a :: l).isPrefixOf ([] : List Char) = false := rfl

theorem startswith_port_tag_of_empty (n : Nat) :
    startswith "" ("PORT" ++ toString n ++ "_") = false := by
  have hdata : ("PORT" ++ toString n ++ "_").data
      = 'P' :: ("ORT".data ++ (toString n).data ++ "_".data) := by
    have : ("PORT" ++ toString n ++ "_").data
        = "PORT".data ++ (toString n).data ++ "_".data := by
      simp [String.data_append]
    rw [this]
    rfl
  rw [startswith, hdata]
  exact isPrefixOf_cons_nil _ _

/-- Amended claim C4: on a line whose trimmed content is empty the generic
simulator writes nothing, while each role handler writes the role's
generic invalid-command response. -/
theorem c4_empty_line (table : List (String × String)) (raw : String) (n : Nat)
    (h : pystrip raw = "") :
    (dummy_iteration table (RxEvent.line raw)).output = none
    ∧ (main_iteration (RxEvent.line raw)).output
        = some "MAIN_ERROR:INVALID_COMMAND\r\n"
    ∧ (port_iteration n (RxEvent.line raw)).output
        = some ("PORT" ++ toString n ++ "_ERROR:INVALID_COMMAND\r\n") := by
  refine ⟨?_, ?_, ?_⟩
  · simp [dummy_iteration, h]
  · simp only [main_iteration, h]
    rw [main_invalid "" (by decide)]
  · simp only [port_iteration, h]
    rw [port_invalid n "" (startswith_port_tag_of_empty n)]

/-- Witness for C4 at a whitespace-only line. -/
theorem c4_empty_line_witness :
    pystrip " \r\n" = ""
    ∧ (dummy_iteration command_responses (RxEvent.line " \r\n")).output = none :=
  ⟨by decide, (c4_empty_line command_responses " \r\n" 1 (by decide)).1⟩

/-- Counterexample for C6: a decoding fault makes the main role handler
break out of its loop (and likewise each port handler), so the fault is
fatal there, not recoverable. -/
theorem c6_counterexample :
    (main_iteration RxEvent.decodeFault).keepGoing = false
    ∧ run_loop main_iteration
        [(true, RxEvent.decodeFault), (true, RxEvent.line "MAIN_INIT\r\n")] = [] := by
  exact ⟨by decide, by decide⟩

/-- Amended claim C6: the generic simulator treats a decoding fault as a
recoverable per-command fault (its catch-all handler logs and the loop
continues), but the multi-port role handlers treat any non-timeout
exception, a decoding fault included, as fatal: they break out of the
loop and the handler tears down. -/
theorem c6_decode_fault (table : List (String × String)) (n : Nat)
    (rest : List (Bool × RxEvent)) :
    dummy_iteration table RxEvent.decodeFault = { output := none, keepGoing := true }
    ∧ run_loop (dummy_iteration table) ((true, RxEvent.decodeFault) :: rest)
        = run_loop (dummy_iteration table) rest
    ∧ main_iteration RxEvent.decodeFault = { output := none, keepGoing := false }
    ∧ run_loop main_iteration ((true, RxEvent.decodeFault) :: rest) = []
    ∧ port_iteration n RxEvent.decodeFault = { output := none, keepGoing := false }
    ∧ run_loop (port_iteration n) ((true, RxEvent.decodeFault) :: rest) = [] := by
  refine ⟨rfl, ?_, rfl, rfl, rfl, rfl⟩
  simp [run_loop, dummy_iteration]

/-- Claim C7: a launch whose secondary-port list does not have exactly 3
entries exits with code 1 before the simulator object is constructed
and before any thread is started. -/
theorem c7_invalid_config (main_port ports_arg : String) (baudrate : Nat)
    (h : (parse_ports ports_arg).length ≠ 3) :
    main_entry main_port ports_arg baudrate
      = { exit_code := some 1, uut := none, threads_started := [] } := by
  simp only [main_entry]
  rw [if_pos h]

/-- Witness for C7 with two secondary ports instead of three. -/
theorem c7_invalid_config_witness :
    (parse_ports "COM11,COM12").length ≠ 3
    ∧ main_entry "COM6" "COM11,COM12" 9600
        = { exit_code := some 1, uut := none, threads_started := [] } :=
  ⟨by decide, c7_invalid_config "COM6" "COM11,COM12" 9600 (by decide)⟩

/-- Claim C8: stopping twice is idempotent: the second `DummyUUT.stop` call
sees the already-closed handle, performs zero close operations and
leaves the state exactly as the first call left it; the second
`MultiPortDummyUUT.stop` call leaves the state of the first unchanged. -/
theorem c8_stop_idempotent (s : DummyState) (m : MultiState) :
    dummy_stop (dummy_stop s).1 = ((dummy_stop s).1, [])
    ∧ multi_stop (multi_stop m) = multi_stop m := by
  constructor
  · obtain ⟨pn, br, sp, run, ds, tb⟩ := s
    cases sp with
    | none => rfl
    | some h =>
      obtain ⟨o⟩ := h
      cases o <;> rfl
  · simp only [multi_stop, List.map_map]
    rfl

end SerialSim

namespace SerialSim

theorem strip_right_decomp (d : List Char) :
    d.dropWhile py_isspace
      = ((d.dropWhile py_isspace).reverse.dropWhile py_isspace).reverse ++
        ((d.dropWhile py_isspace).reverse.takeWhile py_isspace).reverse := by
  conv_lhs => rw [← List.reverse_reverse (d.dropWhile py_isspace),
    ← List.takeWhile_append_dropWhile py_isspace (d.dropWhile py_isspace).reverse]
  exact List.reverse_append _ _

theorem strip_both_decomp (d : List Char) :
    d = d.takeWhile py_isspace ++
        (((d.dropWhile py_isspace).reverse.dropWhile py_isspace).reverse ++
         ((d.dropWhile py_isspace).reverse.takeWhile py_isspace).reverse) := by
  conv_lhs => rw [← List.takeWhile_append_dropWhile py_isspace d]
  congr 1
  exact strip_right_decomp d

/-- Counterexample for C5: the received line is matched after Python
`str.strip()`, which removes LEADING whitespace too, not only trailing
terminators: on the line `"  ATZ\r\n"` the code matches `"ATZ"` and
answers `OK`, while the claim's matched string `"  ATZ"` has no stored
entry and would have produced the fallback error; likewise the main
handler answers `"  MAIN_POWER_ON\r\n"` with the power-on response even
though the claim's matched string is not even `MAIN_`-prefixed. -/
theorem c5_counterexample :
    pystrip "  ATZ\r\n" ≠ trim_trailing_terminators "  ATZ\r\n"
    ∧ trim_trailing_terminators "  ATZ\r\n" = "  ATZ"
    ∧ pystrip "  ATZ\r\n" = "ATZ"
    ∧ (dummy_iteration command_responses (RxEvent.line "  ATZ\r\n")).output
        = some "OK\r\n"
    ∧ get_response command_responses "  ATZ" = none
    ∧ (main_iteration (RxEvent.line "  MAIN_POWER_ON\r\n")).output
        = some "MAIN_POWER:ON\r\n"
    ∧ main_uut_response "  MAIN_POWER_ON" = "MAIN_ERROR:INVALID_COMMAND\r\n" := by
  exact ⟨by decide, by decide, by decide, by decide, by decide, by decide, by decide⟩

/-- Amended claim C5: the command matched against the vocabulary is the
decoded line with whitespace removed from BOTH ends (Python
`str.strip`): the line splits as whitespace ++ matched ++ whitespace,
and the matched part neither starts nor ends with whitespace. -/
theorem c5_matched_is_stripped (raw : String) :
    ∃ pre post : List Char,
      raw.data = pre ++ ((pystrip raw).data ++ post)
      ∧ (∀ ch ∈ pre, py_isspace ch = true)
      ∧ (∀ ch ∈ post, py_isspace ch = true)
      ∧ (∀ ch, (pystrip raw).data.head? = some ch → py_isspace ch = false)
      ∧ (∀ ch, (pystrip raw).data.getLast? = some ch → py_isspace ch = false) := by
  refine ⟨raw.data.takeWhile py_isspace,
          ((raw.data.dropWhile py_isspace).reverse.takeWhile py_isspace).reverse,
          strip_both_decomp raw.data, ?_, ?_, ?_, ?_⟩
  · intro ch hch
    exact List.mem_takeWhile_imp hch
  · intro ch hch
    rw [List.mem_reverse] at hch
    exact List.mem_takeWhile_imp hch
  · intro ch hch
    have hm : (raw.data.dropWhile py_isspace).head? = some ch := by
      rw [strip_right_decomp raw.data, List.head?_append]
      have hps : ((raw.data.dropWhile py_isspace).reverse.dropWhile py_isspace).reverse.head?
          = some ch := hch
      rw [hps]
      rfl
    have h := List.head?_dropWhile_not py_isspace raw.data
    rw [hm] at h
    exact h
  · intro ch hch
    have hps : ((raw.data.dropWhile py_isspace).reverse.dropWhile py_isspace).head?
        = some ch := by
      have : (pystrip raw).data.getLast?
          = ((raw.data.dropWhile py_isspace).reverse.dropWhile py_isspace).head? := by
        exact List.getLast?_reverse _
      rw [this] at hch
      exact hch
    have h := List.head?_dropWhile_not py_isspace (raw.data.dropWhile py_isspace).reverse
    rw [hps] at h
    exact h

end SerialSim

namespace SerialSim

theorem dummy_invariant_init (p : String) (b : Nat) :
    dummy_invariant (dummy_init p b) := by
  constructor
  · rfl
  · show false = true ↔ ("OFFLINE" : String) = "ONLINE"
    decide

theorem dummy_invariant_step (s : DummyState) (op : DummyOp)
    (h : dummy_invariant s) : dummy_invariant (dummy_apply s op) := by
  obtain ⟨pn, br, sp, run, ds, tb⟩ := s
  cases op with
  | start_ok =>
    constructor
    · rfl
    · simp [dummy_apply, dummy_start_ok]
  | start_fail => exact h
  | stop_op =>
    have hoffline : ¬(("OFFLINE" : String) = "ONLINE") := by decide
    cases sp with
    | none =>
      constructor
      · rfl
      · simp [dummy_apply, dummy_stop, hoffline]
    | some hh =>
      obtain ⟨o⟩ := hh
      cases o
      · constructor
        · rfl
        · simp [dummy_apply, dummy_stop, hoffline]
      · constructor
        · rfl
        · simp [dummy_apply, dummy_stop, hoffline]
  | add_cmd c r =>
    obtain ⟨h1, h2⟩ := h
    exact ⟨h1, h2⟩

/-- Counterexample for C9: construct, start successfully, stop.  The state
is back to OFFLINE (stopped) but the transport handle is NOT null — the
code never clears `serial_port`; it only closes the handle. -/
theorem c9_counterexample :
    ([DummyOp.start_ok, DummyOp.stop_op].foldl dummy_apply
        (dummy_init "COM5" 115200)).device_state = "OFFLINE"
    ∧ ([DummyOp.start_ok, DummyOp.stop_op].foldl dummy_apply
        (dummy_init "COM5" 115200)).running = false
    ∧ ([DummyOp.start_ok, DummyOp.stop_op].foldl dummy_apply
        (dummy_init "COM5" 115200)).serial_port = some { is_open := false }
    ∧ ([DummyOp.start_ok, DummyOp.stop_op].foldl dummy_apply
        (dummy_init "COM5" 115200)).serial_port ≠ none := by
  exact ⟨by decide, by decide, by decide, by decide⟩

/-- Amended claim C9: in every reachable `DummyUUT` state the transport handle
is present and OPEN iff the simulator is running (state ONLINE); before
the first successful start the handle is null, and `stop()` closes the
handle but leaves it non-null: the handle is null after `stop()` only
when it was already null before. -/
theorem c9_handle_invariant (p : String) (b : Nat) (ops : List DummyOp) :
    dummy_invariant (ops.foldl dummy_apply (dummy_init p b))
    ∧ (dummy_init p b).serial_port = none
    ∧ ∀ s : DummyState,
        ((dummy_stop s).1.serial_port = none ↔ s.serial_port = none) := by
  refine ⟨?_, rfl, ?_⟩
  · have hstep : ∀ (l : List DummyOp) (s : DummyState), dummy_invariant s →
        dummy_invariant (l.foldl dummy_apply s) := by
      intro l
      induction l with
      | nil => intro s hs; exact hs
      | cons op l ih =>
        intro s hs
        exact ih _ (dummy_invariant_step s op hs)
    exact hstep ops _ (dummy_invariant_init p b)
  · intro s
    obtain ⟨pn, br, sp, run, ds, tb⟩ := s
    cases sp with
    | none => simp [dummy_stop]
    | some hh =>
      obtain ⟨o⟩ := hh
      cases o <;> simp [dummy_stop]

theorem command_responses_crlf :
    ∀ p ∈ command_responses, endswith p.2 "\r\n" = true := by decide

theorem get_response_mem {T : List (String × String)} {x resp : String}
    (h : get_response T x = some resp) : ∃ k, (k, resp) ∈ T := by
  unfold get_response at h
  cases h1 : lookupTable T x with
  | some v =>
    rw [h1] at h
    cases h
    exact ⟨x, lookupTable_mem h1⟩
  | none =>
    rw [h1] at h
    cases h2 : lookupTable T (x ++ "\r\n") with
    | some v =>
      rw [h2] at h
      cases h
      exact ⟨_, lookupTable_mem h2⟩
    | none =>
      rw [h2] at h
      cases h3 : lookupTable T (replace_rn x) with
      | some v =>
        rw [h3] at h
        cases h
        exact ⟨_, lookupTable_mem h3⟩
      | none =>
        rw [h3] at h
        cases h

theorem insertTable_lookup (T : List (String × String)) (c r : String) :
    lookupTable (insertTable T c r) c = some r := by
  induction T with
  | nil => simp [insertTable, lookupTable]
  | cons p rest ih =>
    obtain ⟨k, v⟩ := p
    rw [insertTable]
    by_cases hk : k = c
    · rw [if_pos hk]
      simp [lookupTable]
    · rw [if_neg hk]
      rw [lookupTable, if_neg (fun hh => hk hh.symm)]
      exact ih

/-- Counterexample for C10: `add_command` stores the response verbatim, so a
hot-added response without a terminator is written without CRLF. -/
theorem c10_counterexample :
    (dummy_iteration (insertTable command_responses "FOO" "BAR")
        (RxEvent.line "FOO\r\n")).output = some "BAR"
    ∧ endswith "BAR" "\r\n" = false := by
  exact ⟨by decide, by decide⟩

/-- Amended claim C10: every response the generic simulator writes from its
shipped vocabulary, and the unknown-command fallback, ends with CRLF;
a hot-added entry is stored and served verbatim, CRLF or not. -/
theorem c10_default_crlf (ev : RxEvent) (r : String)
    (h : (dummy_iteration command_responses ev).output = some r) :
    endswith r "\r\n" = true
    ∧ ∀ (T : List (String × String)) (c resp : String),
        lookupTable (insertTable T c resp) c = some resp := by
  refine ⟨?_, fun T c resp => insertTable_lookup T c resp⟩
  cases ev with
  | noData => exact Option.noConfusion h
  | timeoutFault => exact Option.noConfusion h
  | decodeFault => exact Option.noConfusion h
  | line raw =>
    rw [dummy_iteration] at h
    by_cases he : pystrip raw = ""
    · rw [if_pos he] at h
      exact Option.noConfusion h
    · rw [if_neg he] at h
      cases hg : get_response command_responses (pystrip raw) with
      | some resp =>
        rw [hg] at h
        cases h
        obtain ⟨k, hk⟩ := get_response_mem hg
        exact command_responses_crlf (k, r) hk
      | none =>
        rw [hg] at h
        cases h
        decide

/-- Witness for C10 at the command `ATZ`. -/
theorem c10_default_crlf_witness :
    (dummy_iteration command_responses (RxEvent.line "ATZ\r\n")).output = some "OK\r\n"
    ∧ endswith "OK\r\n" "\r\n" = true :=
  ⟨by decide, (c10_default_crlf (RxEvent.line "ATZ\r\n") "OK\r\n" (by decide)).1⟩

end SerialSim
